import Mathlib

/-!
Verification of the SSH connection / session-registry core of the
open-remote-control server.

The stateful TypeScript classes are embedded as pure state-passing
functions:

* `SSHConnection` (src sshManager module) is a record of the shell-session
  key set (a list of session ids in Map insertion order — the stored
  stream objects carry no state the claims need beyond identity), the
  port-forward key set (local ports in insertion order), and the
  `connected` flag.
* Fallible operations return an `Except String` result paired with the
  successor state; external I/O outcomes that the server merely reacts to
  (remote shell allocation, local listener bind, connection readiness) are
  passed in as explicit parameters.
* `SSHManager` is an association list from client id to connection state.
* `SSHHandler` (src sshHandler module) message handlers are embedded as
  functions from state and message fields to the list of outbound
  messages they send, paired with the successor state.
-/

/-- State of one `SSHConnection` instance: the keys of the `shells` map in
insertion order, the keys of the `portForwards` map in insertion order, and
the `connected` flag. -/
structure SSHConnection where
  shells : List String
  portForwards : List Nat
  connected : Bool
deriving DecidableEq, Repr

/-- The `SSHConnection` constructor: both maps empty, not connected. -/
def SSHConnection.new : SSHConnection :=
  { shells := [], portForwards := [], connected := false }

/-- The `isConnected()` accessor. -/
def SSHConnection.isConnected (c : SSHConnection) : Bool :=
  c.connected

/-- The `startShell(sessionId, onData, onClose, cols, rows)` operation.
`shellErr` is the error, if any, with which the underlying client's shell
allocation callback fires; on any rejection the instance state is the
unchanged input state, mirroring the source where `this.shells.set` is
only reached on the success path. -/
def SSHConnection.startShell (c : SSHConnection) (sessionId : String)
    (shellErr : Option String) (cols rows : Nat) :
    Except String Unit × SSHConnection :=
  if c.connected = false then
    (Except.error "SSH not connected", c)
  else if sessionId ∈ c.shells then
    (Except.error ("Shell session " ++ sessionId ++ " already exists"), c)
  else
    match shellErr with
    | some e => (Except.error e, c)
    | none => (Except.ok (), { c with shells := c.shells ++ [sessionId] })

/-- The `writeToShell(sessionId, data)` operation: writes to the named
shell's stream and returns `true` exactly when the session exists. -/
def SSHConnection.writeToShell (c : SSHConnection) (sessionId : String)
    (data : String) : Bool :=
  decide (sessionId ∈ c.shells)

/-- The `resizeShell(sessionId, cols, rows)` operation: returns `true`
exactly when the session exists. -/
def SSHConnection.resizeShell (c : SSHConnection) (sessionId : String)
    (cols rows : Nat) : Bool :=
  decide (sessionId ∈ c.shells)

/-- The `closeShell(sessionId)` operation: when the session exists, closes
its stream and deletes the map entry, returning `true`; otherwise returns
`false` with the state unchanged. -/
def SSHConnection.closeShell (c : SSHConnection) (sessionId : String) :
    Bool × SSHConnection :=
  if sessionId ∈ c.shells then
    (true, { c with shells := c.shells.erase sessionId })
  else
    (false, c)

/-- The `getActiveShells()` accessor: `Array.from(this.shells.keys())`,
the session ids in Map insertion order. -/
def SSHConnection.getActiveShells (c : SSHConnection) : List String :=
  c.shells

/-- The `hasShell(sessionId)` accessor. -/
def SSHConnection.hasShell (c : SSHConnection) (sessionId : String) : Bool :=
  decide (sessionId ∈ c.shells)

/-- The legacy `write(data)` operation writes `data` to the first stream
in the shells map, if any. Its observable effect is which session's
stream receives the data, returned here as that session's id (`none`
when no shell is open and the write is dropped). -/
def SSHConnection.write (c : SSHConnection) (data : String) : Option String :=
  c.shells.head?

/-- The `setupPortForward(config)` operation. `bindErr` is the error, if
any, with which the local listener's bind fails; the source registers the
forward in `this.portForwards` only inside the successful-listen
callback, so on every rejection the state is the unchanged input state. -/
def SSHConnection.setupPortForward (c : SSHConnection) (localPort : Nat)
    (remoteHost : String) (remotePort : Nat) (bindErr : Option String) :
    Except String Unit × SSHConnection :=
  if c.connected = false then
    (Except.error "SSH not connected", c)
  else if localPort ∈ c.portForwards then
    (Except.error ("Port " ++ toString localPort ++ " is already forwarded"), c)
  else
    match bindErr with
    | some e => (Except.error e, c)
    | none => (Except.ok (), { c with portForwards := c.portForwards ++ [localPort] })

/-- The `stopPortForward(localPort)` operation: closes the listener and
deletes the map entry when present, otherwise a no-op. -/
def SSHConnection.stopPortForward (c : SSHConnection) (localPort : Nat) :
    SSHConnection :=
  if localPort ∈ c.portForwards then
    { c with portForwards := c.portForwards.erase localPort }
  else
    c

/-- The `disconnect()` operation: closes and clears every shell, closes
and clears every port forward, then ends the client connection and clears
the flag when connected. -/
def SSHConnection.disconnect (c : SSHConnection) : SSHConnection :=
  let c1 : SSHConnection := { c with shells := [] }
  let c2 : SSHConnection := { c1 with portForwards := [] }
  if c2.connected then { c2 with connected := false } else c2

/-- The argument record of `connect(config)`: host, port, username and the
two optional credentials. -/
structure SSHConfig where
  host : String
  port : Nat
  username : String
  privateKey : Option String
  password : Option String
deriving DecidableEq, Repr

/-- The record `connect` passes to the underlying client's `connect`:
fixed `readyTimeout`, keepalive settings, and at most one credential. -/
structure ClientConnectConfig where
  host : String
  port : Nat
  username : String
  readyTimeout : Nat
  keepaliveInterval : Nat
  keepaliveCountMax : Nat
  privateKey : Option String
  password : Option String
deriving DecidableEq, Repr

/-- The `connectionConfig` value built inside `connect(config)`:
`readyTimeout: 30000`, `keepaliveInterval: 10000`, `keepaliveCountMax: 3`,
then `privateKey` when supplied, else `password` when supplied. -/
def SSHConnection.connectionConfig (config : SSHConfig) : ClientConnectConfig :=
  let base : ClientConnectConfig :=
    { host := config.host
      port := config.port
      username := config.username
      readyTimeout := 30000
      keepaliveInterval := 10000
      keepaliveCountMax := 3
      privateKey := none
      password := none }
  match config.privateKey with
  | some k => { base with privateKey := some k }
  | none =>
    match config.password with
    | some p => { base with password := some p }
    | none => base

/-- Outcome of one underlying connection attempt, as the environment
delivers it: the client became ready after `afterMs` milliseconds, the
client raised an error, or the remote end never answered. -/
inductive ConnectEvent where
  | ready (afterMs : Nat)
  | errored (msg : String)
  | silent
deriving DecidableEq, Repr

/-- Modelled from the spec: the underlying ssh2 client library (outside
this repository) enforces the `readyTimeout` field of the config it is
given — an attempt that has not become ready within `readyTimeout`
milliseconds fails with a handshake-timeout error instead of hanging
("connect() should apply a bounded timeout (reference behavior: ~30
seconds) after which it fails rather than hanging forever"). On `ready`
within the bound, `connect` resolves and sets `connected`; on `error`, it
rejects and leaves `connected` false. -/
def SSHConnection.connect (c : SSHConnection) (config : SSHConfig)
    (ev : ConnectEvent) : Except String Unit × SSHConnection :=
  let cfg := SSHConnection.connectionConfig config
  match ev with
  | ConnectEvent.ready t =>
    if t ≤ cfg.readyTimeout then
      (Except.ok (), { c with connected := true })
    else
      (Except.error "Timed out while waiting for handshake", { c with connected := false })
  | ConnectEvent.errored msg => (Except.error msg, { c with connected := false })
  | ConnectEvent.silent =>
    (Except.error "Timed out while waiting for handshake", { c with connected := false })

/-- State of the `SSHManager` registry: the `connections` map as an
association list from client id to connection state, in insertion order. -/
structure SSHManager where
  connections : List (String × SSHConnection)
deriving DecidableEq, Repr

/-- The `SSHManager` constructor: empty registry. -/
def SSHManager.new : SSHManager :=
  { connections := [] }

/-- Lookup of `this.connections.get(clientId)` on the association list. -/
def lookupConn : List (String × SSHConnection) → String → Option SSHConnection
  | [], _ => none
  | (k, v) :: rest, clientId =>
    if k = clientId then some v else lookupConn rest clientId

/-- The `getConnection(clientId)` operation: get-or-create. Returns the
stored connection unchanged when present, otherwise registers and returns
a fresh `SSHConnection.new`. -/
def SSHManager.getConnection (m : SSHManager) (clientId : String) :
    SSHConnection × SSHManager :=
  match lookupConn m.connections clientId with
  | some c => (c, m)
  | none =>
    (SSHConnection.new,
      { connections := m.connections ++ [(clientId, SSHConnection.new)] })

/-- The `hasConnection(clientId)` accessor. -/
def SSHManager.hasConnection (m : SSHManager) (clientId : String) : Bool :=
  (lookupConn m.connections clientId).isSome

/-- The `removeConnection(clientId)` operation: when an entry exists,
disconnects it and deletes the map entry. -/
def SSHManager.removeConnection (m : SSHManager) (clientId : String) :
    SSHManager :=
  match lookupConn m.connections clientId with
  | some _ =>
    { connections := m.connections.filter (fun p => p.1 ≠ clientId) }
  | none => m

/-- The `cleanup()` operation: disconnects everything and clears the map. -/
def SSHManager.cleanup (_ : SSHManager) : SSHManager :=
  { connections := [] }

/-- An outbound WebSocket message as the SSH handler sends it, reduced to
the fields the claims are about: the `type` tag, the `sessionId` data
field when present, and the `success` data field when present. -/
structure OutMsg where
  type : String
  sessionId : Option String
  success : Option Bool
deriving DecidableEq, Repr

/-- JavaScript truthiness of an optional string field: absent and empty
strings are falsy. -/
def truthy : Option String → Option String
  | none => none
  | some s => if s = "" then none else some s

/-- The `message.data?.sessionId || 'default'` idiom. -/
def orDefaultSession (sessionId : Option String) : String :=
  (truthy sessionId).getD "default"

/-- Messages sent by `SSHHandler.handleConnect`: one
`ssh_connect_response`, with `success:true` when `connect` resolved and
`success:false` when it rejected. -/
def handleConnectMsgs (connectResult : Except String Unit) : List OutMsg :=
  match connectResult with
  | Except.ok _ => [{ type := "ssh_connect_response", sessionId := none, success := some true }]
  | Except.error _ => [{ type := "ssh_connect_response", sessionId := none, success := some false }]

/-- Messages sent by `SSHHandler.handleStartShell`, with the successor
connection state: an `ssh_status` error when not connected or when
`startShell` rejects, an `ssh_shell_started` on success. (`ssh_output`
and `ssh_shell_closed` callbacks registered here fire later, per stream
event; see `streamCloseMsgs`.) -/
def handleStartShellMsgs (c : SSHConnection) (sessionId : Option String)
    (shellErr : Option String) (cols rows : Nat) :
    List OutMsg × SSHConnection :=
  if c.isConnected = false then
    ([{ type := "ssh_status", sessionId := none, success := none }], c)
  else
    let sid := orDefaultSession sessionId
    let r := c.startShell sid shellErr cols rows
    match r.1 with
    | Except.error _ =>
      ([{ type := "ssh_status", sessionId := none, success := none }], r.2)
    | Except.ok _ =>
      ([{ type := "ssh_shell_started", sessionId := some sid, success := none }], r.2)

/-- Observable effect of `SSHHandler.handleInput`: the session id whose
stream receives the input bytes. When connected, the input goes to the
named (or defaulted) session when `writeToShell` succeeds, otherwise it
falls back to the legacy `write`, which targets the first shell in the
map; when not connected (or no shell is open for the fallback) the input
is dropped (`none`). `handleInput` sends no messages. -/
def handleInputTarget (c : SSHConnection) (sessionId : Option String)
    (input : String) : Option String :=
  if c.isConnected = true then
    let sid := orDefaultSession sessionId
    if c.writeToShell sid input then some sid
    else c.write input
  else none

/-- Messages sent by `SSHHandler.handleCloseShell`, with the successor
connection state: when the message carries a truthy `sessionId` and the
connection is connected, it calls `closeShell` and sends one
`ssh_shell_closed` carrying the returned success flag; otherwise it sends
nothing and changes nothing. -/
def handleCloseShellMsgs (c : SSHConnection) (sessionId : Option String) :
    List OutMsg × SSHConnection :=
  match truthy sessionId with
  | some sid =>
    if c.isConnected = true then
      let r := c.closeShell sid
      ([{ type := "ssh_shell_closed", sessionId := some sid, success := some r.1 }], r.2)
    else ([], c)
  | none => ([], c)

/-- Messages sent by `SSHHandler.handleListShells`: always one
`ssh_list_shells_response`. -/
def handleListShellsMsgs (c : SSHConnection) : List OutMsg :=
  [{ type := "ssh_list_shells_response", sessionId := none, success := none }]

/-- Messages sent by `SSHHandler.handleDisconnect`, with the successor
registry state: removes the client's connection and always sends one
`ssh_status` disconnected message. -/
def handleDisconnectMsgs (m : SSHManager) (clientId : String) :
    List OutMsg × SSHManager :=
  ([{ type := "ssh_status", sessionId := none, success := none }],
    m.removeConnection clientId)

/-- Messages sent by `SSHHandler.handlePortForward`, with the successor
connection state: always one `ssh_port_forward_response`, `success:false`
when not connected or `setupPortForward` rejects, `success:true` when it
resolves. -/
def handlePortForwardMsgs (c : SSHConnection) (localPort : Nat)
    (remoteHost : String) (remotePort : Nat) (bindErr : Option String) :
    List OutMsg × SSHConnection :=
  if c.isConnected = false then
    ([{ type := "ssh_port_forward_response", sessionId := none, success := some false }], c)
  else
    let r := c.setupPortForward localPort remoteHost remotePort bindErr
    match r.1 with
    | Except.ok _ =>
      ([{ type := "ssh_port_forward_response", sessionId := none, success := some true }], r.2)
    | Except.error _ =>
      ([{ type := "ssh_port_forward_response", sessionId := none, success := some false }], r.2)

/-- Messages sent by `SSHHandler.handleStopPortForward`, with the
successor connection state: stops the forward when connected, and always
sends one `ssh_port_forward_response` with `success:true`. -/
def handleStopPortForwardMsgs (c : SSHConnection) (localPort : Nat) :
    List OutMsg × SSHConnection :=
  let c2 := if c.isConnected = true then c.stopPortForward localPort else c
  ([{ type := "ssh_port_forward_response", sessionId := none, success := some true }], c2)

/-- Messages produced when a shell stream's close event fires. Modelled
from the spec: "stream closure (by either side) removes the map entry and
triggers onClose() exactly once" — the firing of the underlying ssh2
stream's close event after either side closes the channel is behavior of
a library outside this repository. The handler the source registers in
`startShell` deletes the map entry and calls the `onClose` installed by
`handleStartShell`, which sends exactly one `ssh_shell_closed` message
for the session. -/
def streamCloseMsgs (sessionId : String) : List OutMsg :=
  [{ type := "ssh_shell_closed", sessionId := some sessionId, success := none }]

/-- All `ssh_shell_closed` notifications the client receives for one
explicit `ssh_close_shell` request on session `sid`: the synchronous
acknowledgement sent by `handleCloseShell`, followed — whenever
`closeShell` actually called `shell.close()`, i.e. the connection was
connected and the session existed — by the deferred `streamCloseMsgs`
from the stream's close event. -/
def explicitCloseNotifications (c : SSHConnection) (sid : String) :
    List OutMsg :=
  (handleCloseShellMsgs c (some sid)).1 ++
    (if c.isConnected = true ∧ sid ∈ c.shells ∧ sid ≠ "" then
      streamCloseMsgs sid
    else [])

/-- The `AuthManager.validateToken(token)` operation, with the configured
`CONFIG.authToken` passed explicitly; the empty string is the
unset/falsy configuration, accepted as any token. -/
def validateToken (authToken : String) (token : String) : Bool :=
  if authToken = "" then true
  else token == authToken

/-! Helper lemmas about the registry association list. -/

theorem lookupConn_append_self (l : List (String × SSHConnection))
    (clientId : String) (c : SSHConnection)
    (h : lookupConn l clientId = none) :
    lookupConn (l ++ [(clientId, c)]) clientId = some c := by
  induction l with
  | nil => simp [lookupConn]
  | cons p rest ih =>
    rw [List.cons_append]
    by_cases hp : p.1 = clientId
    · exfalso
      rw [show p = (p.1, p.2) from rfl] at h
      simp [lookupConn, hp] at h
    · rw [show p = (p.1, p.2) from rfl] at h ⊢
      simp only [lookupConn, hp, if_neg hp] at h ⊢
      exact ih h

theorem lookupConn_filter_ne (l : List (String × SSHConnection))
    (clientId : String) :
    lookupConn (l.filter (fun p => p.1 ≠ clientId)) clientId = none := by
  induction l with
  | nil => simp [lookupConn]
  | cons p rest ih =>
    by_cases hp : p.1 = clientId
    · simpa [List.filter, hp] using ih
    · simpa [List.filter, hp, lookupConn] using ih

/-- C1: for every clientId, two successive `SSHManager.getConnection`
calls return the same connection (and the second call leaves the registry
unchanged); after `removeConnection(clientId)`, the next
`getConnection(clientId)` returns a fresh instance whose `isConnected()`
is false and whose shell map and port-forward map are empty. -/
theorem getConnection_registry (m : SSHManager) (clientId : String) :
    (((m.getConnection clientId).2).getConnection clientId).1
        = (m.getConnection clientId).1 ∧
    (((m.getConnection clientId).2).getConnection clientId).2
        = (m.getConnection clientId).2 ∧
    ((m.removeConnection clientId).getConnection clientId).1.isConnected = false ∧
    ((m.removeConnection clientId).getConnection clientId).1.shells = [] ∧
    ((m.removeConnection clientId).getConnection clientId).1.portForwards = [] := by
  have hget : (((m.getConnection clientId).2).getConnection clientId).1
        = (m.getConnection clientId).1 ∧
      (((m.getConnection clientId).2).getConnection clientId).2
        = (m.getConnection clientId).2 := by
    unfold SSHManager.getConnection
    cases hl : lookupConn m.connections clientId with
    | some c => simp [hl]
    | none =>
      simp only [hl]
      rw [lookupConn_append_self m.connections clientId SSHConnection.new hl]
      simp
  have hrem : ((m.removeConnection clientId).getConnection clientId).1
      = SSHConnection.new := by
    unfold SSHManager.removeConnection SSHManager.getConnection
    cases hl : lookupConn m.connections clientId with
    | some c =>
      simp only [hl]
      rw [lookupConn_filter_ne m.connections clientId]
    | none => simp [hl]
  refine ⟨hget.1, hget.2, ?_, ?_, ?_⟩ <;>
    rw [hrem] <;> rfl

/-- C2: after `SSHConnection.disconnect()`, `isConnected()` is false,
`getActiveShells()` is empty and the port-forward map is empty;
`disconnect` is idempotent, and calling it on a never-connected fresh
instance is safe and leaves that same final state. -/
theorem disconnect_teardown (c : SSHConnection) :
    c.disconnect.isConnected = false ∧
    c.disconnect.getActiveShells = [] ∧
    c.disconnect.portForwards = [] ∧
    c.disconnect.disconnect = c.disconnect ∧
    SSHConnection.new.disconnect = SSHConnection.new := by
  unfold SSHConnection.disconnect SSHConnection.isConnected
      SSHConnection.getActiveShells SSHConnection.new
  cases hc : c.connected <;> simp [hc]

/-- C3: `startShell` fails immediately when the connection is not
connected, and fails immediately when the sessionId is already present in
the shell map; in both failure cases the returned state is the unchanged
input state, so the shell map and every existing shell session are left
untouched. -/
theorem startShell_failure_frame (c : SSHConnection) (sessionId : String)
    (shellErr : Option String) (cols rows : Nat)
    (h : c.connected = false ∨ sessionId ∈ c.shells) :
    ∃ e, c.startShell sessionId shellErr cols rows = (Except.error e, c) := by
  unfold SSHConnection.startShell
  by_cases hc : c.connected = false
  · exact ⟨"SSH not connected", by simp [hc]⟩
  · have hs : sessionId ∈ c.shells := h.resolve_left hc
    exact ⟨"Shell session " ++ sessionId ++ " already exists", by simp [hc, hs]⟩

/-- Witness for `startShell_failure_frame` on a fresh (unconnected)
instance. -/
theorem startShell_failure_frame_witness :
    ∃ e, SSHConnection.new.startShell "s1" none 80 24
      = (Except.error e, SSHConnection.new) :=
  startShell_failure_frame SSHConnection.new "s1" none 80 24 (Or.inl rfl)

/-- C4: `setupPortForward` fails when the connection is not connected,
when the localPort is already present in the forward map, or when binding
the local listener fails; in every failure case the returned state is the
unchanged input state, so an already-present forward is untouched and
nothing is registered on bind failure. -/
theorem setupPortForward_failure_frame (c : SSHConnection) (localPort : Nat)
    (remoteHost : String) (remotePort : Nat) (bindErr : Option String)
    (h : c.connected = false ∨ localPort ∈ c.portForwards ∨ bindErr.isSome = true) :
    ∃ e, c.setupPortForward localPort remoteHost remotePort bindErr
      = (Except.error e, c) := by
  unfold SSHConnection.setupPortForward
  by_cases hc : c.connected = false
  · exact ⟨"SSH not connected", by simp [hc]⟩
  · by_cases hp : localPort ∈ c.portForwards
    · exact ⟨"Port " ++ toString localPort ++ " is already forwarded",
        by simp [hc, hp]⟩
    · have hb : bindErr.isSome = true := ((h.resolve_left hc).resolve_left hp)
      cases bindErr with
      | none => exact absurd hb (by simp)
      | some e => exact ⟨e, by simp [hc, hp]⟩

/-- Witness for `setupPortForward_failure_frame`: bind failure on a
connected instance with an empty forward map registers nothing. -/
theorem setupPortForward_failure_frame_witness :
    ∃ e, SSHConnection.setupPortForward
        { shells := [], portForwards := [], connected := true }
        9000 "127.0.0.1" 80 (some "EADDRINUSE")
      = (Except.error e,
        { shells := [], portForwards := [], connected := true }) :=
  setupPortForward_failure_frame
    { shells := [], portForwards := [], connected := true }
    9000 "127.0.0.1" 80 (some "EADDRINUSE")
    (Or.inr (Or.inr rfl))

/-- C7: `closeShell(sessionId)` removes only the named session — every
other session id present in the shell map before the call is still
present afterwards, still accepts `writeToShell`, still appears in
`getActiveShells()`, and the port-forward map is unchanged. -/
theorem closeShell_frame (c : SSHConnection) (sid t : String) (data : String)
    (ht : t ≠ sid) (hm : t ∈ c.shells) :
    t ∈ (c.closeShell sid).2.shells ∧
    (c.closeShell sid).2.writeToShell t data = true ∧
    t ∈ (c.closeShell sid).2.getActiveShells ∧
    (c.closeShell sid).2.portForwards = c.portForwards := by
  have hmem : t ∈ (c.closeShell sid).2.shells := by
    unfold SSHConnection.closeShell
    by_cases hs : sid ∈ c.shells
    · simpa [hs, List.mem_erase_of_ne ht] using hm
    · simpa [hs] using hm
  refine ⟨hmem, ?_, ?_, ?_⟩
  · unfold SSHConnection.writeToShell
    exact decide_eq_true hmem
  · exact hmem
  · unfold SSHConnection.closeShell
    by_cases hs : sid ∈ c.shells <;> simp [hs]

/-- Witness for `closeShell_frame`: closing shell "a" leaves shell "b"
present, writable and listed. -/
theorem closeShell_frame_witness :
    "b" ∈ (SSHConnection.closeShell
        { shells := ["a", "b"], portForwards := [8080], connected := true }
        "a").2.shells ∧
    (SSHConnection.closeShell
        { shells := ["a", "b"], portForwards := [8080], connected := true }
        "a").2.writeToShell "b" "ls" = true ∧
    "b" ∈ (SSHConnection.closeShell
        { shells := ["a", "b"], portForwards := [8080], connected := true }
        "a").2.getActiveShells ∧
    (SSHConnection.closeShell
        { shells := ["a", "b"], portForwards := [8080], connected := true }
        "a").2.portForwards = [8080] :=
  closeShell_frame
    { shells := ["a", "b"], portForwards := [8080], connected := true }
    "a" "b" "ls" (by decide) (by simp)

/-- C8: `validateToken` returns true for every token when no auth secret
is configured (empty secret), and with a configured secret it returns
true exactly when the token equals the secret. -/
theorem validateToken_spec (secret token : String) (h : secret ≠ "") :
    validateToken "" token = true ∧
    (validateToken secret token = true ↔ token = secret) := by
  constructor
  · simp [validateToken]
  · simp [validateToken, h]

/-- Witness for `validateToken_spec` with the secret "s3cret". -/
theorem validateToken_spec_witness :
    validateToken "" "anything" = true ∧
    (validateToken "s3cret" "s3cret" = true ↔ ("s3cret" : String) = "s3cret") :=
  validateToken_spec "s3cret" "s3cret" (by decide)

/-- C9: `connect` passes a `readyTimeout` of 30000 milliseconds
(approximately 30 seconds) to the underlying client for every input
config, and every connection attempt that does not become ready within
that bound fails with an error instead of hanging. -/
theorem connect_timeout_bounded (c : SSHConnection) (config : SSHConfig)
    (ev : ConnectEvent) (h : ∀ t, ev = ConnectEvent.ready t → 30000 < t) :
    (SSHConnection.connectionConfig config).readyTimeout = 30000 ∧
    ∃ e c2, c.connect config ev = (Except.error e, c2) ∧ c2.connected = false := by
  have hrt : (SSHConnection.connectionConfig config).readyTimeout = 30000 := by
    unfold SSHConnection.connectionConfig
    cases config.privateKey <;> cases config.password <;> rfl
  refine ⟨hrt, ?_⟩
  unfold SSHConnection.connect
  cases ev with
  | ready t =>
    have ht : 30000 < t := h t rfl
    have : ¬ t ≤ (SSHConnection.connectionConfig config).readyTimeout := by
      rw [hrt]; omega
    exact ⟨"Timed out while waiting for handshake", { c with connected := false },
      by simp [this], rfl⟩
  | errored msg => exact ⟨msg, { c with connected := false }, rfl, rfl⟩
  | silent =>
    exact ⟨"Timed out while waiting for handshake", { c with connected := false },
      rfl, rfl⟩

/-- Witness for `connect_timeout_bounded`: an attempt that never becomes
ready fails. -/
theorem connect_timeout_bounded_witness :
    (SSHConnection.connectionConfig
      { host := "h", port := 22, username := "u",
        privateKey := none, password := some "pw" }).readyTimeout = 30000 ∧
    ∃ e c2, SSHConnection.new.connect
        { host := "h", port := 22, username := "u",
          privateKey := none, password := some "pw" }
        ConnectEvent.silent
      = (Except.error e, c2) ∧ c2.connected = false :=
  connect_timeout_bounded SSHConnection.new
    { host := "h", port := 22, username := "u",
      privateKey := none, password := some "pw" }
    ConnectEvent.silent
    (fun t ht => by cases ht)

/-- C10: when an `ssh_input` message carries a sessionId that is not in
the shell map while the connection is connected and at least one shell is
open, `handleInput` delivers the input to the first shell in the map via
the legacy `write` fallback — a session different from the one addressed. -/
theorem handleInput_legacy_fallback (c : SSHConnection) (sid input : String)
    (hc : c.connected = true) (hne : sid ≠ "") (hmiss : sid ∉ c.shells)
    (hopen : c.shells ≠ []) :
    handleInputTarget c (some sid) input = c.shells.head? ∧
    ∃ t, c.shells.head? = some t ∧ t ≠ sid ∧ t ∈ c.shells := by
  have hsid : orDefaultSession (some sid) = sid := by
    simp [orDefaultSession, truthy, hne]
  have hwf : c.writeToShell sid input = false := by
    unfold SSHConnection.writeToShell
    exact decide_eq_false hmiss
  constructor
  · unfold handleInputTarget
    simp [SSHConnection.isConnected, hc, hsid, hwf, SSHConnection.write]
  · cases hl : c.shells with
    | nil => exact absurd hl hopen
    | cons hd tl =>
      refine ⟨hd, by simp, ?_, by simp⟩
      intro hEq
      exact hmiss (hEq ▸ (hl ▸ List.mem_cons_self hd tl))

/-- Witness for `handleInput_legacy_fallback`: input addressed to the
unknown session "ghost" reaches the unrelated first shell "a". -/
theorem handleInput_legacy_fallback_witness :
    handleInputTarget
        { shells := ["a", "b"], portForwards := [], connected := true }
        (some "ghost") "ls\n"
      = (["a", "b"] : List String).head? ∧
    ∃ t, (["a", "b"] : List String).head? = some t ∧ t ≠ "ghost" ∧
      t ∈ SSHConnection.shells
        { shells := ["a", "b"], portForwards := [], connected := true } :=
  handleInput_legacy_fallback
    { shells := ["a", "b"], portForwards := [], connected := true }
    "ghost" "ls\n" rfl (by decide) (by decide) (by decide)

/-- C5 counterexample: an explicit `ssh_close_shell` for the open session
"s1" on a connected connection produces two `ssh_shell_closed`
notifications for that sessionId — the synchronous acknowledgement from
`handleCloseShell` and the deferred one from the stream close handler —
not exactly one as claimed. -/
theorem closeShell_double_notification :
    (explicitCloseNotifications
        { shells := ["s1"], portForwards := [], connected := true }
        "s1").length = 2 ∧
    ¬ (explicitCloseNotifications
        { shells := ["s1"], portForwards := [], connected := true }
        "s1").length = 1 := by
  decide

/-- C5 amended: a stream-initiated closure of a shell session notifies
the client exactly once (one `ssh_shell_closed` via the onClose handler),
but an explicit `ssh_close_shell` request on an existing session of a
connected connection results in exactly two `ssh_shell_closed` messages
for that sessionId: the immediate acknowledgement sent by
`handleCloseShell` plus the deferred onClose-driven message when the
closed stream's close event fires. -/
theorem closeShell_notification_count (c : SSHConnection) (sid : String)
    (hc : c.connected = true) (hm : sid ∈ c.shells) (hne : sid ≠ "") :
    (streamCloseMsgs sid).length = 1 ∧
    (explicitCloseNotifications c sid).length = 2 ∧
    ∀ msg ∈ explicitCloseNotifications c sid,
      msg.type = "ssh_shell_closed" ∧ msg.sessionId = some sid := by
  have hmsgs : (handleCloseShellMsgs c (some sid)).1
      = [{ type := "ssh_shell_closed", sessionId := some sid,
            success := some (c.closeShell sid).1 }] := by
    unfold handleCloseShellMsgs
    simp [truthy, hne, SSHConnection.isConnected, hc]
  have hdef : (if c.isConnected = true ∧ sid ∈ c.shells ∧ sid ≠ "" then
      streamCloseMsgs sid else []) = streamCloseMsgs sid := by
    simp [SSHConnection.isConnected, hc, hm, hne]
  refine ⟨rfl, ?_, ?_⟩
  · unfold explicitCloseNotifications
    rw [hmsgs, hdef]
    rfl
  · intro msg hmsg
    unfold explicitCloseNotifications at hmsg
    rw [hmsgs, hdef] at hmsg
    simp only [streamCloseMsgs, List.mem_append, List.mem_singleton] at hmsg
    cases hmsg with
    | inl h => rw [h]; exact ⟨rfl, rfl⟩
    | inr h => rw [h]; exact ⟨rfl, rfl⟩

/-- Witness for `closeShell_notification_count` at the open session "s1"
of a connected connection. -/
theorem closeShell_notification_count_witness :
    (streamCloseMsgs "s1").length = 1 ∧
    (explicitCloseNotifications
        { shells := ["s1"], portForwards := [], connected := true }
        "s1").length = 2 ∧
    ∀ msg ∈ explicitCloseNotifications
        { shells := ["s1"], portForwards := [], connected := true } "s1",
      msg.type = "ssh_shell_closed" ∧ msg.sessionId = some "s1" :=
  closeShell_notification_count
    { shells := ["s1"], portForwards := [], connected := true }
    "s1" rfl (by decide) (by decide)

/-- C6 counterexample: an `ssh_close_shell` request that carries no
sessionId (even on a connected connection with an open shell), or that
arrives while the SSH connection is not connected, makes
`handleCloseShell` send no response at all — the failed operation leaves
the client without a reply, contrary to the claim. -/
theorem closeShell_silent_failure :
    (handleCloseShellMsgs
        { shells := ["s1"], portForwards := [], connected := true }
        none).1 = [] ∧
    (handleCloseShellMsgs
        { shells := ["s1"], portForwards := [], connected := false }
        (some "s1")).1 = [] := by
  decide

/-- C6 amended: every failed operation routed through the SSH handler
receives a response — `ssh_connect`, `ssh_start_shell`,
`ssh_port_forward`, `ssh_stop_port_forward`, `ssh_list_shells` and
`ssh_disconnect` each send exactly one message on every path — except
`ssh_close_shell`, which sends exactly one response when the message
carries a truthy sessionId and the connection is connected, and sends
nothing (leaving the client without a reply) when the sessionId is
missing/empty or the connection is not connected; `ssh_input` and
`ssh_resize` never send a response. -/
theorem ssh_handler_reply_coverage (c : SSHConnection) (m : SSHManager)
    (clientId : String) (connectResult : Except String Unit)
    (sessionId : Option String) (shellErr : Option String) (cols rows : Nat)
    (localPort : Nat) (remoteHost : String) (remotePort : Nat)
    (bindErr : Option String) (sid : String) :
    (handleConnectMsgs connectResult).length = 1 ∧
    (handleStartShellMsgs c sessionId shellErr cols rows).1.length = 1 ∧
    (handlePortForwardMsgs c localPort remoteHost remotePort bindErr).1.length = 1 ∧
    (handleStopPortForwardMsgs c localPort).1.length = 1 ∧
    (handleListShellsMsgs c).length = 1 ∧
    (handleDisconnectMsgs m clientId).1.length = 1 ∧
    (truthy sessionId = none ∨ c.connected = false →
      (handleCloseShellMsgs c sessionId).1 = []) ∧
    (truthy sessionId = some sid → c.connected = true →
      (handleCloseShellMsgs c sessionId).1.length = 1) := by
  refine ⟨?_, ?_, ?_, ?_, rfl, rfl, ?_, ?_⟩
  · cases connectResult <;> rfl
  · unfold handleStartShellMsgs
    by_cases hc : c.isConnected = false
    · simp [hc]
    · simp only [hc, if_false]
      cases hr : (c.startShell (orDefaultSession sessionId) shellErr cols rows).1 <;> simp
  · unfold handlePortForwardMsgs
    by_cases hc : c.isConnected = false
    · simp [hc]
    · simp only [hc, if_false]
      cases hr : (c.setupPortForward localPort remoteHost remotePort bindErr).1 <;> simp
  · rfl
  · intro h
    unfold handleCloseShellMsgs
    cases ht : truthy sessionId with
    | none => rfl
    | some s =>
      have hc : c.connected = false := by
        cases h with
        | inl hn => rw [ht] at hn; cases hn
        | inr hc => exact hc
      simp [SSHConnection.isConnected, hc]
  · intro ht hc
    unfold handleCloseShellMsgs
    rw [ht]
    simp [SSHConnection.isConnected, hc]

/-- Witness for `ssh_handler_reply_coverage` at concrete inputs,
exercising both the no-reply guard (no sessionId) and the single-reply
happy path of `ssh_close_shell`. -/
theorem ssh_handler_reply_coverage_witness :
    (handleCloseShellMsgs
        { shells := ["s1"], portForwards := [], connected := true }
        none).1 = [] ∧
    (handleCloseShellMsgs
        { shells := ["s1"], portForwards := [], connected := true }
        (some "s1")).1.length = 1 ∧
    (handleConnectMsgs (Except.error "refused")).length = 1 :=
  ⟨(ssh_handler_reply_coverage
      { shells := ["s1"], portForwards := [], connected := true }
      SSHManager.new "cl" (Except.error "refused") none none 80 24
      9000 "127.0.0.1" 80 none "s1").2.2.2.2.2.2.1 (Or.inl rfl),
   (ssh_handler_reply_coverage
      { shells := ["s1"], portForwards := [], connected := true }
      SSHManager.new "cl" (Except.error "refused") (some "s1") none 80 24
      9000 "127.0.0.1" 80 none "s1").2.2.2.2.2.2.2 rfl rfl,
   (ssh_handler_reply_coverage
      { shells := ["s1"], portForwards := [], connected := true }
      SSHManager.new "cl" (Except.error "refused") none none 80 24
      9000 "127.0.0.1" 80 none "s1").1⟩
